import Mathlib

/-!
Shallow embedding of `rdc_connections` (src/src/lib.rs), a binding layer over
the Windows remote-desktop session API (WTS).  External OS collaborators
(WTSOpenServerW, WTSEnumerateSessionsW, WTSQuerySessionInformationW,
GetComputerNameExW, GetLastError) are modelled as explicit inputs; machine
integers are `Nat`/`Int`; fallible code returns `Except`; a Rust panic
(`unreachable!`) is modelled by a dedicated `panic` outcome distinct from a
recoverable error value.
-/

/-- Session state, embedding of `enum RemoteDesktopSessionState`
(src/src/lib.rs lines 69-90). -/
inductive RemoteDesktopSessionState where
  | Active
  | Connected
  | ConnectQuery
  | Shadow
  | Disconnected
  | Idle
  | Listen
  | Reset
  | Down
  | Init
deriving DecidableEq, Repr

/-- Embedding of `RemoteDesktopSessionState::get_variant` (lib.rs lines 93-107).
The Rust function matches `id` over the literal codes 0-9 and on anything else
executes `unreachable!()`, which panics; the panic is modelled by `none`
(there is no error value: the function does not return at all). -/
def RemoteDesktopSessionState.get_variant (id : Int) : Option RemoteDesktopSessionState :=
  match id with
  | 0 => some .Active
  | 1 => some .Connected
  | 2 => some .ConnectQuery
  | 3 => some .Shadow
  | 4 => some .Disconnected
  | 5 => some .Idle
  | 6 => some .Listen
  | 7 => some .Reset
  | 8 => some .Down
  | 9 => some .Init
  | _ => none

/-- Error values produced by the library.  The source uses `anyhow!` with a
format string; each distinct format string in lib.rs becomes one constructor,
carrying exactly the data interpolated into that string:
- `enumerationFailed code` — "could not read remote-desktop sessions info. error-code: ..." (lib.rs line 138);
- `clientInfoQueryFailed code` — "could not read user-name. error-code: ..."
  (lib.rs line 178; note the message interpolates only the `GetLastError`
  code, not the session id);
- `textDecodeFailed` — the `?` on `WString::to_string_checked` (lib.rs
  lines 191, 193);
- `hostNameQueryFailed code` — "could not read host-name. error-code: ..."
  (lib.rs line 219);
- `utf16DecodeFailed` — the `?` on `String::from_utf16` (lib.rs line 222);
- `serverOpenFailed code` — the `ServerOpenFailed(code)` error named by the
  specification for `RemoteServer::new`; no code path in lib.rs constructs it,
  it is declared here so that statements about it can be written down. -/
inductive WtsError where
  | enumerationFailed (code : Nat)
  | clientInfoQueryFailed (code : Nat)
  | textDecodeFailed
  | hostNameQueryFailed (code : Nat)
  | utf16DecodeFailed
  | serverOpenFailed (code : Nat)
deriving DecidableEq, Repr

/-- Outcome of running a piece of Rust code that can return a value, return an
error through `anyhow::Result`, or panic (`unreachable!`). -/
inductive RunResult (α : Type) where
  | ok (a : α)
  | error (e : WtsError)
  | panic
deriving DecidableEq, Repr

/-- UTF-16 decoding of a list of 16-bit code units into Unicode characters,
as performed by Rust `String::from_utf16`: a unit outside the surrogate range
is one character; a high surrogate (0xD800-0xDBFF) must be followed by a low
surrogate (0xDC00-0xDFFF), the pair forming one supplementary character; an
unpaired surrogate is a decoding error (`none`). -/
def utf16Decode : List Nat → Option (List Char)
  | [] => some []
  | u :: rest =>
    if u < 0xD800 ∨ (0xDFFF < u ∧ u < 0x10000) then
      (utf16Decode rest).map (fun cs => Char.ofNat u :: cs)
    else if 0xD800 ≤ u ∧ u ≤ 0xDBFF then
      match rest with
      | [] => none
      | v :: rest2 =>
        if 0xDC00 ≤ v ∧ v ≤ 0xDFFF then
          (utf16Decode rest2).map
            (fun cs => Char.ofNat (0x10000 + (u - 0xD800) * 0x400 + (v - 0xDC00)) :: cs)
        else none
    else none

/-- Embedding of `WString::from_wchars_slice(buf).to_string_checked()`
(winsafe): the wide-char buffer is interpreted as a null-terminated UTF-16
string — units up to the first 0 are decoded, decoding failure is an error. -/
def wstringToStringChecked (units : List Nat) : Option (List Char) :=
  utf16Decode (units.takeWhile (fun u => u ≠ 0))

/-- Embedding of the `WTSCLIENTW` record returned by the
"query session information" collaborator (`WTSQuerySessionInformationW` with
info class `WTSClientInfo`): wide-char arrays `UserName` and `ClientName`,
the address family (`u32`) and the fixed `[u16; 31]` address buffer. -/
structure WTSCLIENTW where
  UserName : List Nat
  ClientName : List Nat
  ClientAddressFamily : Nat
  ClientAddress : List Nat
deriving DecidableEq, Repr

/-- Embedding of `struct ClientInfo` (lib.rs lines 58-65): decoded user name,
decoded client NetBIOS name, and the raw `(family, buffer)` address pair. -/
structure ClientInfo where
  user : List Char
  client : List Char
  address : Nat × List Nat
deriving DecidableEq, Repr

/-- Embedding of `struct RemoteDesktopSessionInfo` (lib.rs lines 38-42). -/
structure RemoteDesktopSessionInfo where
  session_id : Nat
  state : RemoteDesktopSessionState
  client_info : ClientInfo
deriving DecidableEq, Repr

/-- Embedding of `struct RemoteServer` (lib.rs lines 24-28): the opaque server
handle (a machine word; 0 models a NULL/invalid handle) and the stored list of
session records. -/
structure RemoteServer where
  server_handle : Nat
  sessions_list : List RemoteDesktopSessionInfo
deriving DecidableEq, Repr

/-- The external WTS collaborators for one `RemoteServer` instance (the server
handle is fixed per instance, so it is absorbed into the collaborator model):
- `enumSessions`: outcome of `WTSEnumerateSessionsW` — `some pairs` on success
  with the transient buffer holding `(SessionId, State.0)` pairs in collaborator
  order, `none` on failure;
- `enumError`: the `GetLastError` code observed after a failed enumeration;
- `querySession sid`: outcome of `WTSQuerySessionInformationW` for session
  `sid` — `some record` (the transient client-info buffer) or `none` on failure;
- `queryError sid`: the `GetLastError` code observed after a failed query for
  session `sid`. -/
structure WtsEnv where
  enumSessions : Option (List (Nat × Int))
  enumError : Nat
  querySession : Nat → Option WTSCLIENTW
  queryError : Nat → Nat

/-- Embedding of `RemoteServer::fetch_client_info` (lib.rs lines 162-201),
instrumented for buffer accounting: the result is paired with two flags,
whether the collaborator allocated a transient client-info buffer and whether
`WTSFreeMemory` was called on it.  In the source, on query failure no buffer
exists (`false, false`); on query success the record is copied out of the
buffer and the buffer is freed at line 189 before either string is decoded, so
both decode-failure exits and the success exit have the buffer freed
(`true, true`). -/
def RemoteServer.fetch_client_info (env : WtsEnv) (session_id : Nat) :
    Except WtsError ClientInfo × Bool × Bool :=
  match env.querySession session_id with
  | none => (.error (.clientInfoQueryFailed (env.queryError session_id)), false, false)
  | some ci =>
    match wstringToStringChecked ci.UserName with
    | none => (.error .textDecodeFailed, true, true)
    | some user =>
      match wstringToStringChecked ci.ClientName with
      | none => (.error .textDecodeFailed, true, true)
      | some client =>
        (.ok { user := user, client := client,
               address := (ci.ClientAddressFamily, ci.ClientAddress) }, true, true)

/-- One `if b then 1 else 0` step for buffer accounting. -/
def countFlag (b : Bool) : Nat := if b then 1 else 0

/-- Embedding of the `for ss_ptr in sessions_list` loop of
`RemoteServer::update_info` (lib.rs lines 147-154), instrumented with the
numbers of client-info buffers allocated and freed.  For each `(sid, code)`
pair, in order: the struct literal first evaluates
`RemoteDesktopSessionState::get_variant(code)` (panicking on an out-of-range
code), then `fetch_client_info(sid)?`, whose error aborts the loop
immediately. -/
def buildRecords (env : WtsEnv) :
    List (Nat × Int) → RunResult (List RemoteDesktopSessionInfo) × Nat × Nat
  | [] => (.ok [], 0, 0)
  | (sid, code) :: rest =>
    match RemoteDesktopSessionState.get_variant code with
    | none => (.panic, 0, 0)
    | some st =>
      match RemoteServer.fetch_client_info env sid with
      | (.error e, a, f) => (.error e, countFlag a, countFlag f)
      | (.ok ci, a, f) =>
        match buildRecords env rest with
        | (.ok recs, ca, cf) =>
          (.ok ({ session_id := sid, state := st, client_info := ci } :: recs),
           countFlag a + ca, countFlag f + cf)
        | (.error e, ca, cf) => (.error e, countFlag a + ca, countFlag f + cf)
        | (.panic, ca, cf) => (.panic, countFlag a + ca, countFlag f + cf)

/-- Buffer accounting over one `update_info` call: whether the enumeration
buffer from `WTSEnumerateSessionsW` was allocated, whether `WTSFreeMemory` was
called on it, and how many client-info buffers were allocated and freed. -/
structure FreeStats where
  enumAllocated : Bool
  enumFreed : Bool
  clientAllocated : Nat
  clientFreed : Nat
deriving DecidableEq, Repr

/-- Result of one `update_info` call: the returned `Result` (or panic), the
server state afterwards, and the buffer accounting. -/
structure UpdateResult where
  outcome : RunResult Unit
  server : RemoteServer
  stats : FreeStats
deriving Repr

/-- Embedding of `RemoteServer::update_info` (lib.rs lines 125-160).  On
enumeration failure it returns the error built from `GetLastError`; otherwise
it builds the new record list into the local `sessions_v`, and only if the
whole loop succeeds frees the enumeration buffer (line 155) and assigns
`self.sessions_list = sessions_v` (line 156).  An early `?` return from the
loop leaves the enumeration buffer unfreed and the stored list untouched. -/
def RemoteServer.update_info (env : WtsEnv) (s : RemoteServer) : UpdateResult :=
  match env.enumSessions with
  | none =>
    { outcome := .error (.enumerationFailed env.enumError), server := s,
      stats := { enumAllocated := false, enumFreed := false,
                 clientAllocated := 0, clientFreed := 0 } }
  | some pairs =>
    match buildRecords env pairs with
    | (.ok recs, ca, cf) =>
      { outcome := .ok (), server := { s with sessions_list := recs },
        stats := { enumAllocated := true, enumFreed := true,
                   clientAllocated := ca, clientFreed := cf } }
    | (.error e, ca, cf) =>
      { outcome := .error e, server := s,
        stats := { enumAllocated := true, enumFreed := false,
                   clientAllocated := ca, clientFreed := cf } }
    | (.panic, ca, cf) =>
      { outcome := .panic, server := s,
        stats := { enumAllocated := true, enumFreed := false,
                   clientAllocated := ca, clientFreed := cf } }

/-- Embedding of `RemoteServer::new` (lib.rs lines 112-122).  The source calls
`WTSOpenServerW` and stores whatever handle comes back (0 models a
NULL/invalid handle, i.e. a failed open) without inspecting it; it
unconditionally returns `Ok` with that handle and an empty session list. -/
def RemoteServer.new (openedHandle : Nat) : Except WtsError RemoteServer :=
  Except.ok { server_handle := openedHandle, sessions_list := [] }

/-- Embedding of `struct SessionInfoIter` (lib.rs lines 52-54): a borrow of the
stored session list of the server. -/
structure SessionInfoIter where
  internal : List RemoteDesktopSessionInfo
deriving DecidableEq, Repr

/-- Embedding of `RemoteServer::iter` (lib.rs lines 204-208). -/
def RemoteServer.iter (s : RemoteServer) : SessionInfoIter :=
  { internal := s.sessions_list }

/-- Embedding of `Iterator::next` for `SessionInfoIter` (lib.rs lines 44-49).
The source body is `self.internal.iter().next()`: it constructs a FRESH slice
iterator over the borrowed vector on every call and returns its first element;
`self` holds no cursor and is not advanced.  So the call yields the first
element of the stored list (or `none` when the list is empty) and leaves the
iterator state unchanged. -/
def SessionInfoIter.next (it : SessionInfoIter) :
    Option RemoteDesktopSessionInfo × SessionInfoIter :=
  (it.internal.head?, it)

/-- Drive a `SessionInfoIter` for at most `n` calls to `next`, collecting the
yielded records and stopping early when `next` returns `none`. -/
def iterTake : Nat → SessionInfoIter → List RemoteDesktopSessionInfo
  | 0, _ => []
  | n + 1, it =>
    match it.next with
    | (none, _) => []
    | (some r, it2) => r :: iterTake n it2

/-- The external "get computer name" collaborator (`GetComputerNameExW` with
format selector 0 and a 256-word buffer): `succeeded` is whether the call
returned nonzero, `errorCode` the `GetLastError` code observed on failure, and
`name` the UTF-16 units of the computer name written into the front of the
buffer on success (followed by the terminating 0 the collaborator writes,
which is indistinguishable from the zero-initialised tail of the buffer). -/
structure HostNameEnv where
  succeeded : Bool
  errorCode : Nat
  name : List Nat

/-- The 256-word buffer as it stands after a successful collaborator call:
`[0_u16; 256]` zero-initialised, with the name written over its front. -/
def hostBuffer (env : HostNameEnv) : List Nat :=
  env.name ++ List.replicate (256 - env.name.length) 0

/-- Embedding of `get_host_name` (lib.rs lines 212-226).  On collaborator
failure it returns the error built from `GetLastError`; on success it decodes
the ENTIRE 256-word buffer with `String::from_utf16(&host_name_buffer)?` —
the collaborator-reported `size` is never consulted. -/
def get_host_name (env : HostNameEnv) : Except WtsError (List Char) :=
  if env.succeeded then
    match utf16Decode (hostBuffer env) with
    | none => Except.error .utf16DecodeFailed
    | some s => Except.ok s
  else
    Except.error (.hostNameQueryFailed env.errorCode)

/-- Boolean success test for an `Except` result. -/
def isOkB {α : Type} (x : Except WtsError α) : Bool :=
  match x with
  | .ok _ => true
  | .error _ => false

/-- Raw client-info record for the spec scenario: user "alice" on client
"WS01", each array null-terminated as the collaborator returns it. -/
def aliceInfo : WTSCLIENTW :=
  { UserName := [97, 108, 105, 99, 101, 0], ClientName := [87, 83, 48, 49, 0],
    ClientAddressFamily := 2, ClientAddress := [0, 0] }

/-- Raw client-info record for the spec scenario: user "bob" on client
"WS02". -/
def bobInfo : WTSCLIENTW :=
  { UserName := [98, 111, 98, 0], ClientName := [87, 83, 48, 50, 0],
    ClientAddressFamily := 2, ClientAddress := [0, 0] }

/-- Collaborators for the fully successful spec scenario: enumeration returns
sessions (1, code 0) and (2, code 4); the client-info query resolves both. -/
def envOk : WtsEnv :=
  { enumSessions := some [(1, 0), (2, 4)], enumError := 0,
    querySession := fun sid =>
      if sid = 1 then some aliceInfo else if sid = 2 then some bobInfo else none,
    queryError := fun _ => 5 }

/-- A stored record from some earlier refresh, used as pre-state. -/
def recA : RemoteDesktopSessionInfo :=
  { session_id := 10, state := .Listen,
    client_info := { user := [], client := [], address := (0, []) } }

/-- A second stored record from some earlier refresh, distinct from `recA`. -/
def recB : RemoteDesktopSessionInfo :=
  { session_id := 11, state := .Down,
    client_info := { user := [], client := [], address := (0, []) } }

/-- A server whose stored list already holds the two records `recA`, `recB`. -/
def twoRecordServer : RemoteServer := { server_handle := 7, sessions_list := [recA, recB] }

/-- Collaborators where the session enumeration itself fails with code 3. -/
def envFail : WtsEnv :=
  { enumSessions := none, enumError := 3,
    querySession := fun _ => none, queryError := fun _ => 5 }

/-- Collaborators for the partial-failure spec scenario: enumeration returns
sessions 1 and 2, the client-info query resolves session 1 and fails for
session 2 with code 5. -/
def envFail2 : WtsEnv :=
  { enumSessions := some [(1, 0), (2, 4)], enumError := 0,
    querySession := fun sid => if sid = 1 then some aliceInfo else none,
    queryError := fun _ => 5 }

/-- Same as `envFail2` except the failing session is 7 instead of 2 (same
failure code 5). -/
def envFail7 : WtsEnv :=
  { enumSessions := some [(1, 0), (7, 4)], enumError := 0,
    querySession := fun sid => if sid = 1 then some aliceInfo else none,
    queryError := fun _ => 5 }

/-- Collaborators where enumeration succeeds with one session whose
client-info query then fails: the exit path that leaks the enumeration
buffer. -/
def envLeak : WtsEnv :=
  { enumSessions := some [(1, 0)], enumError := 0,
    querySession := fun _ => none, queryError := fun _ => 5 }

/-- Failed host-name collaborator reporting code 87. -/
def envHostFail : HostNameEnv := { succeeded := false, errorCode := 87, name := [] }

/-- Successful host-name collaborator returning the name "PC". -/
def envHostOk : HostNameEnv := { succeeded := true, errorCode := 0, name := [80, 67] }

/-- When the query collaborator fails for a session, `fetch_client_info`
returns the error built from the `GetLastError` code for that session; no
transient buffer is allocated or freed. -/
theorem fetch_client_info_query_failure (env : WtsEnv) (sid : Nat)
    (hq : env.querySession sid = none) :
    RemoteServer.fetch_client_info env sid =
      (.error (.clientInfoQueryFailed (env.queryError sid)), false, false) := by
  unfold RemoteServer.fetch_client_info
  rw [hq]

/-- When the record-building loop succeeds, it produces exactly one record per
enumerated pair, in order, each carrying the session id of the pair, the state
classified from the raw code of the pair, and the decoded client info for that
session. -/
theorem buildRecords_ok_forall2 (env : WtsEnv) :
    ∀ (pairs : List (Nat × Int)) (recs : List RemoteDesktopSessionInfo) (ca cf : Nat),
      buildRecords env pairs = (.ok recs, ca, cf) →
      List.Forall₂ (fun (p : Nat × Int) (r : RemoteDesktopSessionInfo) =>
        r.session_id = p.1 ∧
        RemoteDesktopSessionState.get_variant p.2 = some r.state ∧
        (RemoteServer.fetch_client_info env p.1).1 = Except.ok r.client_info) pairs recs := by
  intro pairs
  induction pairs with
  | nil =>
    intro recs ca cf h
    simp only [buildRecords, Prod.mk.injEq, RunResult.ok.injEq] at h
    rw [← h.1]
    exact List.Forall₂.nil
  | cons p rest ih =>
    intro recs ca cf h
    obtain ⟨sid, code⟩ := p
    rw [buildRecords] at h
    split at h
    · simp at h
    · rename_i st hv
      rcases hf : RemoteServer.fetch_client_info env sid with ⟨fr, fa, ff⟩
      rw [hf] at h
      cases fr with
      | error e2 => simp at h
      | ok ci =>
        rcases hb : buildRecords env rest with ⟨br, ca2, cf2⟩
        rw [hb] at h
        cases br with
        | ok recs2 =>
          simp only [Prod.mk.injEq, RunResult.ok.injEq] at h
          rw [← h.1]
          refine List.Forall₂.cons ⟨rfl, ?_, ?_⟩ (ih recs2 ca2 cf2 hb)
          · rw [hv]
          · rw [hf]
        | error e2 => simp at h
        | panic => simp at h

/-- If the record-building loop reaches a session whose client-info query
fails (every earlier pair having resolved), the loop result is the
client-info-query error for that session. -/
theorem buildRecords_query_failure (env : WtsEnv) :
    ∀ (pre : List (Nat × Int)) (sid : Nat) (code : Int) (post : List (Nat × Int)),
      (∀ p ∈ pre, (RemoteDesktopSessionState.get_variant p.2).isSome = true ∧
        isOkB (RemoteServer.fetch_client_info env p.1).1 = true) →
      (RemoteDesktopSessionState.get_variant code).isSome = true →
      env.querySession sid = none →
      (buildRecords env (pre ++ (sid, code) :: post)).1 =
        RunResult.error (.clientInfoQueryFailed (env.queryError sid)) := by
  intro pre
  induction pre with
  | nil =>
    intro sid code post _ hst hq
    rcases hv : RemoteDesktopSessionState.get_variant code with _ | st
    · rw [hv] at hst; simp at hst
    · simp only [List.nil_append, buildRecords, hv,
        fetch_client_info_query_failure env sid hq]
  | cons p rest ih =>
    intro sid code post hpre hst hq
    obtain ⟨psid, pcode⟩ := p
    obtain ⟨hv1, hf1⟩ := hpre (psid, pcode) (List.mem_cons_self _ _)
    rcases hv : RemoteDesktopSessionState.get_variant pcode with _ | st
    · rw [hv] at hv1; simp at hv1
    · rcases hf : RemoteServer.fetch_client_info env psid with ⟨fr, fa, ff⟩
      cases fr with
      | error e => rw [hf] at hf1; simp [isOkB] at hf1
      | ok ci =>
        have hrest := ih sid code post
          (fun q hq2 => hpre q (List.mem_cons_of_mem _ hq2)) hst hq
        rcases hb : buildRecords env (rest ++ (sid, code) :: post) with ⟨br, ca2, cf2⟩
        rw [hb] at hrest
        simp only [List.cons_append, buildRecords, hv, hf, List.append_eq]
        cases br with
        | ok recs => exact absurd hrest (by simp)
        | error e2 =>
          rw [hb]
          have he2 : e2 = WtsError.clientInfoQueryFailed (env.queryError sid) := by
            simpa using hrest
          rw [he2]
        | panic => exact absurd hrest (by simp)

/-- UTF-16 decoding of a unit list that stays below the surrogate range (or in
the upper BMP) succeeds and maps every unit to its own character. -/
theorem utf16Decode_bmp : ∀ (l : List Nat),
    (∀ u ∈ l, u < 0xD800 ∨ (0xDFFF < u ∧ u < 0x10000)) →
    utf16Decode l = some (l.map Char.ofNat) := by
  intro l
  induction l with
  | nil => intro _; rfl
  | cons u rest ih =>
    intro h
    have hu := h u (List.mem_cons_self _ _)
    rw [utf16Decode.eq_def]
    dsimp only
    rw [if_pos hu, ih (fun v hv => h v (List.mem_cons_of_mem _ hv))]
    rfl

/-- C1: if `update_info` succeeds on an enumerated pair list, the stored
session list afterwards stands in one-to-one, order-preserving correspondence
with the enumerated pairs (`List.Forall₂`): the i-th record carries the
session id of the i-th pair, the state classified from its raw state code via
`get_variant`, and the decoded client info returned by `fetch_client_info`
for that session.  Since each component of every record is determined by the
pairs and the collaborators, the new list fully replaces the previous stored
list. -/
theorem C1_update_info_success_builds_records (env : WtsEnv) (s : RemoteServer)
    (pairs : List (Nat × Int))
    (henum : env.enumSessions = some pairs)
    (hok : (RemoteServer.update_info env s).outcome = RunResult.ok ()) :
    List.Forall₂ (fun (p : Nat × Int) (r : RemoteDesktopSessionInfo) =>
        r.session_id = p.1 ∧
        RemoteDesktopSessionState.get_variant p.2 = some r.state ∧
        (RemoteServer.fetch_client_info env p.1).1 = Except.ok r.client_info)
      pairs (RemoteServer.update_info env s).server.sessions_list := by
  simp only [RemoteServer.update_info, henum] at hok ⊢
  rcases hb : buildRecords env pairs with ⟨r, ca, cf⟩
  rw [hb] at hok
  cases r with
  | ok recs => simpa using buildRecords_ok_forall2 env pairs recs ca cf hb
  | error e => exact RunResult.noConfusion hok
  | panic => exact RunResult.noConfusion hok

/-- Witness for C1 at the spec scenario: enumeration gives sessions
(1, code 0) and (2, code 4), both client-info queries resolve, and the refresh
succeeds, producing the corresponding record list. -/
theorem C1_witness :
    envOk.enumSessions = some [(1, 0), (2, 4)] ∧
    (RemoteServer.update_info envOk twoRecordServer).outcome = RunResult.ok () ∧
    List.Forall₂ (fun (p : Nat × Int) (r : RemoteDesktopSessionInfo) =>
        r.session_id = p.1 ∧
        RemoteDesktopSessionState.get_variant p.2 = some r.state ∧
        (RemoteServer.fetch_client_info envOk p.1).1 = Except.ok r.client_info)
      [(1, 0), (2, 4)]
      (RemoteServer.update_info envOk twoRecordServer).server.sessions_list :=
  ⟨rfl, by decide,
   C1_update_info_success_builds_records envOk twoRecordServer [(1, 0), (2, 4)] rfl (by decide)⟩

/-- C2 (code bug): the `Iterator` implementation for `SessionInfoIter` builds
a fresh slice iterator on each call (`self.internal.iter().next()`), so on a
server holding the two distinct records `recA`, `recB` three successive calls
to `next` all yield `recA` and the iterator state never advances — the
iteration never yields `recB`, never terminates, and is not the stored
sequence, contradicting both the spec and the doc comment of `iter`
("Returns iterator to go through all connections"). -/
theorem C2_session_iter_repeats_first_record :
    iterTake 3 (RemoteServer.iter twoRecordServer) = [recA, recA, recA] ∧
    (RemoteServer.iter twoRecordServer).next
      = (some recA, RemoteServer.iter twoRecordServer) ∧
    recA ≠ recB := by decide

/-- C3: whenever `update_info` returns an error — enumeration failure, a
client-info query failure, or a text-decode failure — the stored session list
afterwards is exactly the list stored before the call. -/
theorem C3_update_info_failure_preserves_sessions_list (env : WtsEnv)
    (s : RemoteServer) (e : WtsError)
    (h : (RemoteServer.update_info env s).outcome = RunResult.error e) :
    (RemoteServer.update_info env s).server.sessions_list = s.sessions_list := by
  unfold RemoteServer.update_info at h ⊢
  cases henum : env.enumSessions with
  | none => simp only [henum]
  | some pairs =>
    simp only [henum] at h ⊢
    rcases hb : buildRecords env pairs with ⟨r, ca, cf⟩
    rw [hb] at h
    cases r with
    | ok recs => exact RunResult.noConfusion h
    | error e2 => rfl
    | panic => rfl

/-- Witness for C3: a failed enumeration (code 3) leaves the two previously
stored records in place. -/
theorem C3_witness :
    (RemoteServer.update_info envFail twoRecordServer).outcome
      = RunResult.error (.enumerationFailed 3) ∧
    (RemoteServer.update_info envFail twoRecordServer).server.sessions_list
      = twoRecordServer.sessions_list :=
  ⟨by decide,
   C3_update_info_failure_preserves_sessions_list envFail twoRecordServer
     (.enumerationFailed 3) (by decide)⟩

/-- C4: `get_variant` maps each integer code 0-9 to the unique documented
variant (0 Active, 1 Connected, 2 ConnectQuery, 3 Shadow, 4 Disconnected,
5 Idle, 6 Listen, 7 Reset, 8 Down, 9 Init); being a pure function of its
argument, it is deterministic and has no side effects. -/
theorem C4_get_variant_documented_table :
    RemoteDesktopSessionState.get_variant 0 = some .Active ∧
    RemoteDesktopSessionState.get_variant 1 = some .Connected ∧
    RemoteDesktopSessionState.get_variant 2 = some .ConnectQuery ∧
    RemoteDesktopSessionState.get_variant 3 = some .Shadow ∧
    RemoteDesktopSessionState.get_variant 4 = some .Disconnected ∧
    RemoteDesktopSessionState.get_variant 5 = some .Idle ∧
    RemoteDesktopSessionState.get_variant 6 = some .Listen ∧
    RemoteDesktopSessionState.get_variant 7 = some .Reset ∧
    RemoteDesktopSessionState.get_variant 8 = some .Down ∧
    RemoteDesktopSessionState.get_variant 9 = some .Init := by decide

/-- Counterexample to C5 as stated: at the out-of-range code 10 the source
hits `unreachable!()` and panics (modelled by `none`): there is no
`InvalidStateCode` error value carrying 10 — indeed no recoverable result
value at all — returned to the caller, and the function type
(`Self`, not `Result`) could not even carry one. -/
theorem C5_counterexample_no_error_value :
    RemoteDesktopSessionState.get_variant 10 = none := by decide

/-- C5 (amended): for every integer code outside [0,9], `get_variant` never
returns a variant (in particular no default variant); it panics via
`unreachable!()`, a fatal assertion failure rather than a recoverable
`InvalidStateCode` error value. -/
theorem C5_out_of_range_panics : ∀ id : Int, (id < 0 ∨ 9 < id) →
    RemoteDesktopSessionState.get_variant id = none := by
  intro id h
  unfold RemoteDesktopSessionState.get_variant
  split <;> first | rfl | omega

/-- Witness for the amended C5 at the concrete out-of-range code 42. -/
theorem C5_witness :
    ((42 : Int) < 0 ∨ (9 : Int) < 42) ∧
    RemoteDesktopSessionState.get_variant 42 = none :=
  ⟨Or.inr (by norm_num), C5_out_of_range_panics 42 (Or.inr (by norm_num))⟩

/-- Counterexample to C6 as stated: even when the open-server collaborator
fails (returns the NULL handle 0), `RemoteServer::new` returns `Ok` with that
handle and an empty session list — no `ServerOpenFailed` error is surfaced
(the source never inspects the handle and has no error path). -/
theorem C6_counterexample_null_handle_ok :
    RemoteServer.new 0 = Except.ok { server_handle := 0, sessions_list := [] } := rfl

/-- C6 (amended): for every host name, `RemoteServer::new` succeeds
unconditionally, returning a client that holds whatever handle the
open-server collaborator produced (valid or not) and an empty session list;
collaborator failure is never surfaced as `ServerOpenFailed`. -/
theorem C6_new_always_succeeds : ∀ h : Nat,
    RemoteServer.new h = Except.ok { server_handle := h, sessions_list := [] } :=
  fun _ => rfl

/-- Counterexample to C7 as stated: the refresh error produced when the
client-info query fails for session 2 with code 5 (`envFail2`) is the very
same value as the one produced when the failing session is 7 with code 5
(`envFail7`) — the error carries only the platform code interpolated into the
anyhow message ("could not read user-name. error-code: ...", lib.rs line 178),
not the session id the claim says it carries. -/
theorem C7_counterexample_error_lacks_session_id :
    (RemoteServer.update_info envFail2 twoRecordServer).outcome
      = RunResult.error (.clientInfoQueryFailed 5) ∧
    (RemoteServer.update_info envFail7 twoRecordServer).outcome
      = RunResult.error (.clientInfoQueryFailed 5) := by decide

/-- C7 (amended): if, during refresh, the client-info query fails for an
enumerated session `sid` (each pair before it having fully resolved), the
whole refresh fails immediately with a `ClientInfoQueryFailed` error carrying
the platform code reported for that session — but not the session id — and
the stored session list is exactly what it was before the call (no record
from the batch is published). -/
theorem C7_query_failure_aborts_refresh (env : WtsEnv) (s : RemoteServer)
    (pre post : List (Nat × Int)) (sid : Nat) (code : Int)
    (henum : env.enumSessions = some (pre ++ (sid, code) :: post))
    (hpre : ∀ p ∈ pre, (RemoteDesktopSessionState.get_variant p.2).isSome = true ∧
      isOkB (RemoteServer.fetch_client_info env p.1).1 = true)
    (hst : (RemoteDesktopSessionState.get_variant code).isSome = true)
    (hq : env.querySession sid = none) :
    (RemoteServer.update_info env s).outcome =
      RunResult.error (.clientInfoQueryFailed (env.queryError sid)) ∧
    (RemoteServer.update_info env s).server.sessions_list = s.sessions_list := by
  have hb := buildRecords_query_failure env pre sid code post hpre hst hq
  simp only [RemoteServer.update_info, henum]
  rcases hbr : buildRecords env (pre ++ (sid, code) :: post) with ⟨br, ca2, cf2⟩
  rw [hbr] at hb
  cases br with
  | ok recs => exact absurd hb (by simp)
  | error e2 =>
    have he2 : e2 = WtsError.clientInfoQueryFailed (env.queryError sid) := by
      simpa using hb
    exact ⟨by rw [he2], rfl⟩
  | panic => exact absurd hb (by simp)

/-- Witness for the amended C7 at the spec scenario: sessions 1 and 2
enumerated, session 1 resolves, the query for session 2 fails with code 5;
the refresh fails with `ClientInfoQueryFailed(5)` and the stored list is
untouched. -/
theorem C7_witness :
    envFail2.enumSessions = some ([(1, 0)] ++ ((2 : Nat), (4 : Int)) :: []) ∧
    (∀ p ∈ [((1 : Nat), (0 : Int))],
      (RemoteDesktopSessionState.get_variant p.2).isSome = true ∧
      isOkB (RemoteServer.fetch_client_info envFail2 p.1).1 = true) ∧
    (RemoteDesktopSessionState.get_variant 4).isSome = true ∧
    envFail2.querySession 2 = none ∧
    ((RemoteServer.update_info envFail2 twoRecordServer).outcome =
        RunResult.error (.clientInfoQueryFailed (envFail2.queryError 2)) ∧
      (RemoteServer.update_info envFail2 twoRecordServer).server.sessions_list =
        twoRecordServer.sessions_list) :=
  ⟨rfl, by decide, by decide, by decide,
   C7_query_failure_aborts_refresh envFail2 twoRecordServer [(1, 0)] [] 2 4
     rfl (by decide) (by decide) (by decide)⟩

/-- C8 (code bug): on the exit path where enumeration succeeded (here with
session 1) but the client-info query failed, `update_info` returns through the
`?` operator at lib.rs line 152 without ever reaching the
`WTSFreeMemory(sessions)` call at line 155 — the enumeration buffer is
allocated but never freed, contradicting the release-exactly-once
requirement. -/
theorem C8_enum_buffer_leaked_on_query_failure :
    (RemoteServer.update_info envLeak twoRecordServer).stats.enumAllocated = true ∧
    (RemoteServer.update_info envLeak twoRecordServer).stats.enumFreed = false ∧
    (RemoteServer.update_info envLeak twoRecordServer).outcome
      = RunResult.error (.clientInfoQueryFailed 5) := by decide

/-- C9: whenever the get-computer-name collaborator reports failure,
`get_host_name` returns the `HostNameQueryFailed` error carrying the
`GetLastError` code and in particular never returns a text value. -/
theorem C9_host_name_failure_surfaced (env : HostNameEnv)
    (h : env.succeeded = false) :
    get_host_name env = Except.error (.hostNameQueryFailed env.errorCode) := by
  simp only [get_host_name, h]
  simp

/-- Witness for C9 at the spec scenario: collaborator failure code 87 yields
`HostNameQueryFailed(87)`. -/
theorem C9_witness :
    envHostFail.succeeded = false ∧
    get_host_name envHostFail = Except.error (.hostNameQueryFailed 87) :=
  ⟨rfl, C9_host_name_failure_surfaced envHostFail rfl⟩

/-- C10: on collaborator success (with a computer name of at most 255
surrogate-free units, which the collaborator contract guarantees),
`get_host_name` decodes the entire fixed 256-word buffer rather than only the
reported length: the result is the decoded computer name followed by U+0000
padding, 256 characters in all. -/
theorem C10_full_buffer_decoded (env : HostNameEnv)
    (hs : env.succeeded = true)
    (hlen : env.name.length ≤ 255)
    (hbmp : ∀ u ∈ env.name, u < 0xD800 ∨ (0xDFFF < u ∧ u < 0x10000)) :
    get_host_name env = Except.ok
      (env.name.map Char.ofNat ++ List.replicate (256 - env.name.length) (Char.ofNat 0)) ∧
    (env.name.map Char.ofNat
      ++ List.replicate (256 - env.name.length) (Char.ofNat 0)).length = 256 := by
  have hdec : utf16Decode (hostBuffer env)
      = some (env.name.map Char.ofNat
          ++ List.replicate (256 - env.name.length) (Char.ofNat 0)) := by
    have hall : ∀ u ∈ hostBuffer env, u < 0xD800 ∨ (0xDFFF < u ∧ u < 0x10000) := by
      intro u hu
      rcases List.mem_append.mp hu with h1 | h2
      · exact hbmp u h1
      · left
        have := List.eq_of_mem_replicate h2
        omega
    rw [utf16Decode_bmp (hostBuffer env) hall]
    unfold hostBuffer
    rw [List.map_append, List.map_replicate]
  constructor
  · simp only [get_host_name, hs]
    rw [hdec]
    simp
  · rw [List.length_append, List.length_map, List.length_replicate]
    omega

/-- Witness for C10 at the concrete name "PC": the successful call returns the
two name characters followed by 254 NUL characters, 256 in all. -/
theorem C10_witness :
    envHostOk.succeeded = true ∧
    envHostOk.name.length ≤ 255 ∧
    (∀ u ∈ envHostOk.name, u < 0xD800 ∨ (0xDFFF < u ∧ u < 0x10000)) ∧
    (get_host_name envHostOk = Except.ok
        (envHostOk.name.map Char.ofNat
          ++ List.replicate (256 - envHostOk.name.length) (Char.ofNat 0)) ∧
      (envHostOk.name.map Char.ofNat
        ++ List.replicate (256 - envHostOk.name.length) (Char.ofNat 0)).length = 256) :=
  ⟨rfl, by decide, by decide, C10_full_buffer_decoded envHostOk rfl (by decide) (by decide)⟩
